import Mathlib

/-!
Verification development for a drone-simulator service and its fleet
controller.  `DroneSim` embeds the per-vehicle motion simulator
(`drone.py`): a mutable vehicle state advanced by a fixed 0.1 s tick,
with takeoff / land / move / move-to control commands.  `FleetSim`
embeds the fleet controller (`drones.py`): a registry of vehicle
records, a command relay that forwards commands to a vehicle's HTTP
endpoint, a telemetry aggregation round over all registered vehicles,
and the subscriber broadcast loop.  Floating-point arithmetic is
idealized as real arithmetic; on the fleet side, where no irrational
arithmetic occurs, numbers are rationals so everything is executable.
Network and database effects are made explicit: the network is an
oracle function from URL to outcome, and the registry is passed and
returned explicitly.
-/

namespace DroneSim

/-- The mutable state of one simulated vehicle (`DroneState.__init__`). -/
structure DroneState where
  is_flying : Bool
  latitude : ℝ
  longitude : ℝ
  altitude : ℝ
  speed : ℝ
  battery : ℝ
  moving_to_target : Bool
  target_latitude : ℝ
  target_longitude : ℝ
  target_altitude : ℝ
  movement_speed : ℝ

/-- The constructor's initial values. -/
noncomputable def initState : DroneState :=
  { is_flying := false, latitude := 0, longitude := 0, altitude := 0, speed := 0,
    battery := 100, moving_to_target := false, target_latitude := 0,
    target_longitude := 0, target_altitude := 0, movement_speed := 5 }

/-- `DroneState.update_position`: apply a delta to the position, derive the
speed from the displacement over 0.1 s with the flat-earth scale
111000 m/degree, and drain 0.01 battery; a no-op when not flying. -/
noncomputable def update_position (dlat dlon dalt : ℝ) (s : DroneState) : DroneState :=
  if s.is_flying then
    { s with latitude := s.latitude + dlat,
             longitude := s.longitude + dlon,
             altitude := s.altitude + dalt,
             speed := Real.sqrt ((dlat * 111000) ^ 2 + (dlon * 111000) ^ 2 + dalt ^ 2) / 0.1,
             battery := s.battery - 0.01 }
  else s

/-- `DroneState.start_move_to`: store the target and enter seeking mode;
a no-op when not flying. -/
def start_move_to (lat lon alt : ℝ) (s : DroneState) : DroneState :=
  if s.is_flying then
    { s with target_latitude := lat, target_longitude := lon,
             target_altitude := alt, moving_to_target := true }
  else s

/-- The Euclidean distance to the target that `DroneState.update_movement`
computes: flat-earth scale 111000 m/degree on latitude/longitude, meters
on altitude. -/
noncomputable def distTo (s : DroneState) : ℝ :=
  Real.sqrt (((s.target_latitude - s.latitude) * 111000) ^ 2
    + ((s.target_longitude - s.longitude) * 111000) ^ 2
    + (s.target_altitude - s.altitude) ^ 2)

/-- `DroneState.update_movement`: one seeking step.  Returns unchanged when
not flying or not seeking; snaps to the target (speed 0, seeking cleared)
when closer than 0.1 m; otherwise moves by
`min(step_distance / max(distance, 0.0001), 1)` of the remaining vector,
sets the speed, and drains 0.01 battery. -/
noncomputable def update_movement (dt : ℝ) (s : DroneState) : DroneState :=
  if !s.is_flying || !s.moving_to_target then s
  else if distTo s < 0.1 then
    { s with latitude := s.target_latitude, longitude := s.target_longitude,
             altitude := s.target_altitude, moving_to_target := false, speed := 0 }
  else
    let step_distance := s.movement_speed * dt
    let step_ratio := min (step_distance / max (distTo s) 0.0001) 1
    { s with latitude := s.latitude + (s.target_latitude - s.latitude) * step_ratio,
             longitude := s.longitude + (s.target_longitude - s.longitude) * step_ratio,
             altitude := s.altitude + (s.target_altitude - s.altitude) * step_ratio,
             speed := step_distance / dt,
             battery := s.battery - 0.01 }

/-- One tick of the simulation scheduler: `update_movement` with `dt = 0.1`,
as invoked by `simulate_drone`. -/
noncomputable def tick : DroneState → DroneState := update_movement 0.1

/-- Outcome field of the control endpoints' JSON replies. -/
inductive Status where
  | success
  | error
deriving DecidableEq

/-- `POST /api/drone/takeoff`: succeed only when grounded, setting
`is_flying` and the altitude; report an error otherwise, unchanged. -/
noncomputable def takeoff (altitude : ℝ) (s : DroneState) : Status × DroneState :=
  if !s.is_flying then (Status.success, { s with is_flying := true, altitude := altitude })
  else (Status.error, s)

/-- `POST /api/drone/land`: succeed only when flying, resetting altitude,
speed and seeking mode; report an error otherwise, unchanged. -/
noncomputable def land (s : DroneState) : Status × DroneState :=
  if s.is_flying then
    (Status.success, { s with is_flying := false, altitude := 0, speed := 0,
                              moving_to_target := false })
  else (Status.error, s)

/-- `POST /api/drone/move`: apply the request values as position deltas via
`update_position` when flying; report an error otherwise, unchanged. -/
noncomputable def move (dlat dlon dalt : ℝ) (s : DroneState) : Status × DroneState :=
  if s.is_flying then (Status.success, update_position dlat dlon dalt s)
  else (Status.error, s)

/-- `POST /api/drone/move_to`: store an absolute goal via `start_move_to`
when flying; report an error otherwise, unchanged. -/
noncomputable def move_to (lat lon alt : ℝ) (s : DroneState) : Status × DroneState :=
  if s.is_flying then (Status.success, start_move_to lat lon alt s)
  else (Status.error, s)

/-- One iteration of the `simulate_drone` background loop body: when flying,
either a seeking tick or the constant idle drift of 0.0001 degrees on each
of latitude and longitude. -/
noncomputable def simulateStep (s : DroneState) : DroneState :=
  if s.is_flying then
    if s.moving_to_target then update_movement 0.1 s
    else update_position 0.0001 0.0001 0 s
  else s

/-- The state invariant: seeking implies airborne (the target coordinates
are always-present fields, so "a target is set" has no separate content). -/
def Inv (s : DroneState) : Prop := s.moving_to_target = true → s.is_flying = true

/-- Airborne seeking state 0.5 m due north of its current position: the
counterexample input for the tick-count bound. -/
noncomputable def s0 : DroneState :=
  { is_flying := true, latitude := 0, longitude := 0, altitude := 0, speed := 0,
    battery := 100, moving_to_target := true, target_latitude := 0.5 / 111000,
    target_longitude := 0, target_altitude := 0, movement_speed := 5 }

/-- Airborne seeking state 10 m due north of its current position
(the spec's worked example). -/
noncomputable def s1 : DroneState :=
  { is_flying := true, latitude := 0, longitude := 0, altitude := 0, speed := 0,
    battery := 100, moving_to_target := true, target_latitude := 10 / 111000,
    target_longitude := 0, target_altitude := 0, movement_speed := 5 }

/-- An airborne, non-seeking (drifting) state. -/
noncomputable def sDrift : DroneState := { initState with is_flying := true }

/-- An airborne seeking state used to witness invariant preservation. -/
noncomputable def sSeek : DroneState :=
  { initState with is_flying := true, moving_to_target := true }

end DroneSim

namespace FleetSim

/-- The vehicle's JSON reply to a relayed control command, as the relay
sees it (`response.json()`), abstracted to its status/message fields. -/
structure Reply where
  status : String
  message : String
deriving DecidableEq

/-- Outcome of one HTTP request to a vehicle, as distinguished by
`send_to_drone`: a transport failure (`httpx.RequestError`), an HTTP
error status (`response.raise_for_status`), or a successful reply. -/
inductive RemoteOutcome where
  | transportError (msg : String)
  | httpError (code : Nat) (msg : String)
  | ok (reply : Reply)
deriving DecidableEq

/-- Does the outcome of the remote call fail at the transport level
(unreachable, or an HTTP error status)? -/
def isFailure : RemoteOutcome → Bool
  | RemoteOutcome.ok _ => false
  | RemoteOutcome.transportError _ => true
  | RemoteOutcome.httpError _ _ => true

/-- An `HTTPException` raised by the controller (status code + detail). -/
structure HTTPErr where
  code : Nat
  detail : String
deriving DecidableEq

/-- One row of the `drones` table (the cached fleet vehicle record). -/
structure FleetDrone where
  name : String
  owner_id : Int
  current_lat : Option ℚ
  current_lng : Option ℚ
  current_altitude : Option ℚ
  current_status : String
  battery_level : Int
  max_speed : ℚ
  ip : String
  port : String
  updated_at : Nat
deriving DecidableEq

/-- The fleet registry: the `drones` table as an id-keyed association list. -/
abbrev Registry := List (Nat × FleetDrone)

/-- The base URL `get_drone_url` builds for a registered vehicle. -/
def droneUrl (d : FleetDrone) : String := "http://" ++ d.ip ++ ":" ++ d.port

/-- `db.query(Drone).filter(Drone.id == drone_id).first()`. -/
def findDrone (reg : Registry) (did : Nat) : Option FleetDrone :=
  (reg.find? (fun p => p.1 == did)).map Prod.snd

/-- `send_to_drone`: look the vehicle up (404 if absent, with no network
call), issue the request to its URL, and translate transport errors to
500 and HTTP error statuses to their code; the second component records
the URLs actually contacted. -/
def send_to_drone (net : String → RemoteOutcome) (reg : Registry) (did : Nat)
    (endpoint : String) : Except HTTPErr Reply × List String :=
  match findDrone reg did with
  | none => (Except.error ⟨404, "Drone " ++ toString did ++ " not found"⟩, [])
  | some d =>
      match net (droneUrl d ++ endpoint) with
      | RemoteOutcome.transportError msg =>
          (Except.error ⟨500, "Failed to communicate with drone " ++ toString did
            ++ ": " ++ msg⟩, [droneUrl d ++ endpoint])
      | RemoteOutcome.httpError code msg =>
          (Except.error ⟨code, msg⟩, [droneUrl d ++ endpoint])
      | RemoteOutcome.ok reply => (Except.ok reply, [droneUrl d ++ endpoint])

/-- The JSON body a successful relay command returns. -/
structure RelayResp where
  drone_id : Nat
  status : String
  result : Reply
deriving DecidableEq

/-- The JSON body a successful relayed status query returns. -/
structure StatusResp where
  drone_id : Nat
  status : Reply
deriving DecidableEq

/-- `db.query(Drone).filter(Drone.id == drone_id).update({...})`. -/
def updateWhere (reg : Registry) (did : Nat) (f : FleetDrone → FleetDrone) : Registry :=
  reg.map (fun p => if p.1 = did then (p.1, f p.2) else p)

/-- `POST /api/drones/{id}/takeoff`: relay first; an exception from the
relay propagates, leaving the registry untouched; on a reply, cache
status `"flying"` and the update timestamp (`now`). -/
def takeoff_drone (net : String → RemoteOutcome) (reg : Registry) (did now : Nat) :
    Except HTTPErr RelayResp × Registry × List String :=
  match send_to_drone net reg did "/api/drone/takeoff" with
  | (Except.error e, calls) => (Except.error e, reg, calls)
  | (Except.ok r, calls) =>
      (Except.ok ⟨did, "takeoff initiated", r⟩,
       updateWhere reg did (fun d => { d with current_status := "flying", updated_at := now }),
       calls)

/-- `POST /api/drones/{id}/land`: like takeoff, caching status `"stopped"`. -/
def land_drone (net : String → RemoteOutcome) (reg : Registry) (did now : Nat) :
    Except HTTPErr RelayResp × Registry × List String :=
  match send_to_drone net reg did "/api/drone/land" with
  | (Except.error e, calls) => (Except.error e, reg, calls)
  | (Except.ok r, calls) =>
      (Except.ok ⟨did, "landing initiated", r⟩,
       updateWhere reg did (fun d => { d with current_status := "stopped", updated_at := now }),
       calls)

/-- `POST /api/drones/{id}/move`: relay first; on a reply, cache the
request's coordinates and the update timestamp. -/
def move_drone (net : String → RemoteOutcome) (reg : Registry) (did : Nat)
    (lat lng alt : ℚ) (now : Nat) : Except HTTPErr RelayResp × Registry × List String :=
  match send_to_drone net reg did "/api/drone/move" with
  | (Except.error e, calls) => (Except.error e, reg, calls)
  | (Except.ok r, calls) =>
      (Except.ok ⟨did, "move command sent", r⟩,
       updateWhere reg did (fun d =>
         { d with
             current_lat := some lat,
             current_lng := some lng,
             current_altitude := some alt,
             updated_at := now }),
       calls)

/-- `POST /api/drones/{id}/move_to`: same caching behavior as move. -/
def move_to_drone (net : String → RemoteOutcome) (reg : Registry) (did : Nat)
    (lat lng alt : ℚ) (now : Nat) : Except HTTPErr RelayResp × Registry × List String :=
  match send_to_drone net reg did "/api/drone/move_to" with
  | (Except.error e, calls) => (Except.error e, reg, calls)
  | (Except.ok r, calls) =>
      (Except.ok ⟨did, "move_to command sent", r⟩,
       updateWhere reg did (fun d =>
         { d with
             current_lat := some lat,
             current_lng := some lng,
             current_altitude := some alt,
             updated_at := now }),
       calls)

/-- `GET /api/drones/{id}/status`: relay only, no registry update. -/
def get_drone_status (net : String → RemoteOutcome) (reg : Registry) (did : Nat) :
    Except HTTPErr StatusResp × List String :=
  match send_to_drone net reg did "/api/drone/status" with
  | (Except.error e, calls) => (Except.error e, calls)
  | (Except.ok r, calls) => (Except.ok ⟨did, r⟩, calls)

/-- Whether an `Except` result is a success. -/
def exceptIsOk {ε α : Type} : Except ε α → Bool
  | Except.ok _ => true
  | Except.error _ => false

/-- One entry of the aggregation round's id-to-telemetry mapping: either
the combined per-vehicle snapshot or the error marker
`{"error": "Failed to fetch telemetry"}`. -/
inductive TEntry where
  | ok (name : String) (payload : String) (lat lng alt : Option ℚ)
      (battery : Int) (ms : ℚ)
  | err
deriving DecidableEq

/-- `float(x) if x else None`: both NULL and 0 collapse to `None`
(Python truthiness on the numeric column). -/
def numOrNone : Option ℚ → Option ℚ
  | none => none
  | some v => if v = 0 then none else some v

/-- The entry built for one vehicle in an aggregation round: query its
status endpoint (the oracle returns `none` on any `httpx.HTTPError`),
degrade to the error marker on failure. -/
def mkEntry (net : String → Option String) (d : FleetDrone) : TEntry :=
  match net (droneUrl d ++ "/api/drone/status") with
  | some payload =>
      TEntry.ok d.name payload (numOrNone d.current_lat) (numOrNone d.current_lng)
        (numOrNone d.current_altitude) d.battery_level d.max_speed
  | none => TEntry.err

/-- Python dict assignment `m[k] = v`: overwrite in place, else append. -/
def dictInsert : List (Nat × TEntry) → Nat → TEntry → List (Nat × TEntry)
  | [], k, v => [(k, v)]
  | p :: rest, k, v => if p.1 = k then (p.1, v) :: rest else p :: dictInsert rest k v

/-- One aggregation round: build `telemetry_data` over all registered
vehicles. -/
def aggregateRound (net : String → Option String) (reg : Registry) :
    List (Nat × TEntry) :=
  reg.foldl (fun acc p => dictInsert acc p.1 (mkEntry net p.2)) []

/-- The broadcast `for ws in websocket_connections` loop, in Python's
index-based iteration semantics: at index `i`, push to `l[i]`; on failure
`websocket_connections.remove(ws)` deletes the first occurrence in place
and iteration resumes at index `i + 1` of the shortened list.  Returns
the final subscriber list and the subscribers that received the snapshot,
in order. -/
def broadcastFrom (ok : Nat → Bool) (i : Nat) (l : List Nat) : List Nat × List Nat :=
  if h : i < l.length then
    let x := l.get ⟨i, h⟩
    if ok x then
      let p := broadcastFrom ok (i + 1) l
      (p.1, x :: p.2)
    else
      broadcastFrom ok (i + 1) (l.erase x)
  else (l, [])
termination_by l.length - i
decreasing_by
  · omega
  · have h1 := (List.erase_sublist (l.get ⟨i, h⟩) l).length_le
    omega

/-- One full broadcast of a round's snapshot to the subscriber list. -/
def broadcastRound (ok : Nat → Bool) (l : List Nat) : List Nat × List Nat :=
  broadcastFrom ok 0 l

/-- A registered vehicle record whose cached status is `"stopped"`. -/
def dStopped : FleetDrone :=
  ⟨"alpha", 1, none, none, none, "stopped", 100, 50, "10.0.0.5", "8001", 0⟩

/-- A registry holding only `dStopped` under id 1. -/
def reg1 : Registry := [(1, dStopped)]

/-- The empty registry. -/
def reg0 : Registry := []

/-- A network where every vehicle call completes at the HTTP level but the
vehicle replies with a non-success application status. -/
def netBusy : String → RemoteOutcome :=
  fun _ => RemoteOutcome.ok ⟨"error", "Drone is already flying"⟩

/-- A network where every vehicle is unreachable. -/
def netDown : String → RemoteOutcome :=
  fun _ => RemoteOutcome.transportError "connection refused"

/-- Registered vehicles for the three-vehicle aggregation example. -/
def dA : FleetDrone :=
  ⟨"a", 1, some 10, some 20, some 30, "flying", 90, 50, "10.0.0.1", "8001", 0⟩

/-- Second vehicle of the aggregation example (the unreachable one). -/
def dB : FleetDrone :=
  ⟨"b", 1, none, none, none, "stopped", 80, 50, "10.0.0.2", "8001", 0⟩

/-- Third vehicle of the aggregation example (cached latitude 0, which the
Python truthiness quirk collapses to `None`). -/
def dC : FleetDrone :=
  ⟨"c", 2, some 0, some 5, none, "flying", 70, 40, "10.0.0.3", "8001", 0⟩

/-- The three-vehicle registry. -/
def reg3 : Registry := [(1, dA), (2, dB), (3, dC)]

/-- A status-query network where exactly `dB` is unreachable. -/
def net3 : String → Option String :=
  fun u => if u = droneUrl dB ++ "/api/drone/status" then none else some "telemetry"

/-- A push predicate under which exactly subscriber 0 fails. -/
def okA : Nat → Bool := fun n => n != 0

end FleetSim

namespace DroneSim

lemma tick_idle (s : DroneState) (hmov : s.moving_to_target = false) : tick s = s := by
  unfold tick update_movement
  split_ifs with h1 h2
  · rfl
  · exfalso; rw [hmov] at h1; simp at h1
  · exfalso; rw [hmov] at h1; simp at h1

lemma tick_near (s : DroneState) (hfly : s.is_flying = true)
    (hmov : s.moving_to_target = true) (hd : distTo s < 0.1) :
    tick s = { s with latitude := s.target_latitude, longitude := s.target_longitude,
                      altitude := s.target_altitude, moving_to_target := false,
                      speed := 0 } := by
  unfold tick update_movement
  split_ifs with h1
  · exfalso; rw [hfly, hmov] at h1; simp at h1
  · rfl

lemma tick_far (s : DroneState) (hfly : s.is_flying = true)
    (hmov : s.moving_to_target = true) (hd : 0.1 ≤ distTo s) :
    tick s = { s with
      latitude := s.latitude + (s.target_latitude - s.latitude) *
        min (s.movement_speed * 0.1 / max (distTo s) 0.0001) 1,
      longitude := s.longitude + (s.target_longitude - s.longitude) *
        min (s.movement_speed * 0.1 / max (distTo s) 0.0001) 1,
      altitude := s.altitude + (s.target_altitude - s.altitude) *
        min (s.movement_speed * 0.1 / max (distTo s) 0.0001) 1,
      speed := s.movement_speed * 0.1 / 0.1,
      battery := s.battery - 0.01 } := by
  unfold tick update_movement
  split_ifs with h1 h2
  · exfalso; rw [hfly, hmov] at h1; simp at h1
  · exact absurd h2 (not_lt.2 hd)
  · rfl

lemma distTo_nonneg (s : DroneState) : 0 ≤ distTo s := Real.sqrt_nonneg _

lemma distTo_tick_far (s : DroneState) (hfly : s.is_flying = true)
    (hmov : s.moving_to_target = true) (hms : 0 < s.movement_speed)
    (hd : 0.1 ≤ distTo s) :
    distTo (tick s) = max (distTo s - s.movement_speed * 0.1) 0 := by
  have hd0 : (0 : ℝ) < distTo s := lt_of_lt_of_le (by norm_num) hd
  have hmax : max (distTo s) 0.0001 = distTo s :=
    max_eq_left (le_trans (by norm_num) hd)
  rw [tick_far s hfly hmov hd]
  have hr1 : min (s.movement_speed * 0.1 / max (distTo s) 0.0001) 1 ≤ 1 :=
    min_le_right _ _
  set r : ℝ := min (s.movement_speed * 0.1 / max (distTo s) 0.0001) 1 with hrdef
  show distTo { s with
      latitude := s.latitude + (s.target_latitude - s.latitude) * r,
      longitude := s.longitude + (s.target_longitude - s.longitude) * r,
      altitude := s.altitude + (s.target_altitude - s.altitude) * r,
      speed := s.movement_speed * 0.1 / 0.1,
      battery := s.battery - 0.01 } = _
  unfold distTo
  have key : ((s.target_latitude - (s.latitude + (s.target_latitude - s.latitude) * r)) * 111000) ^ 2
      + ((s.target_longitude - (s.longitude + (s.target_longitude - s.longitude) * r)) * 111000) ^ 2
      + (s.target_altitude - (s.altitude + (s.target_altitude - s.altitude) * r)) ^ 2
      = (1 - r) ^ 2 * (((s.target_latitude - s.latitude) * 111000) ^ 2
        + ((s.target_longitude - s.longitude) * 111000) ^ 2
        + (s.target_altitude - s.altitude) ^ 2) := by ring
  rw [key, Real.sqrt_mul (sq_nonneg _), Real.sqrt_sq (by linarith : (0:ℝ) ≤ 1 - r)]
  have hD : Real.sqrt (((s.target_latitude - s.latitude) * 111000) ^ 2
      + ((s.target_longitude - s.longitude) * 111000) ^ 2
      + (s.target_altitude - s.altitude) ^ 2) = distTo s := rfl
  rw [hD]
  rcases le_or_lt (distTo s) (s.movement_speed * 0.1) with hle | hlt
  · have hr : r = 1 := by
      rw [hrdef, hmax]
      exact min_eq_right ((one_le_div hd0).2 hle)
    rw [hr]
    rw [max_eq_right (by linarith : distTo s - s.movement_speed * 0.1 ≤ 0)]
    ring
  · have hr : r = s.movement_speed * 0.1 / distTo s := by
      rw [hrdef, hmax]
      exact min_eq_left (le_of_lt ((div_lt_one hd0).2 hlt))
    rw [hr, max_eq_left (by linarith : (0:ℝ) ≤ distTo s - s.movement_speed * 0.1)]
    field_simp

lemma distTo_snapped (s : DroneState) :
    distTo { s with latitude := s.target_latitude, longitude := s.target_longitude,
                    altitude := s.target_altitude, moving_to_target := false,
                    speed := 0 } = 0 := by
  unfold distTo
  norm_num

lemma tick_reach : ∀ (k : ℕ) (s : DroneState), s.is_flying = true →
    s.moving_to_target = true → 0 < s.movement_speed →
    distTo s ≤ s.movement_speed * 0.1 * k →
    (tick^[k + 1] s).latitude = s.target_latitude ∧
    (tick^[k + 1] s).longitude = s.target_longitude ∧
    (tick^[k + 1] s).altitude = s.target_altitude ∧
    (tick^[k + 1] s).target_latitude = s.target_latitude ∧
    (tick^[k + 1] s).target_longitude = s.target_longitude ∧
    (tick^[k + 1] s).target_altitude = s.target_altitude ∧
    (tick^[k + 1] s).speed = 0 ∧
    (tick^[k + 1] s).moving_to_target = false := by
  intro k
  induction k with
  | zero =>
    intro s h1 h2 h3 h4
    have h0 : distTo s < 0.1 := by
      have hz : distTo s ≤ 0 := by simpa using h4
      have := distTo_nonneg s
      linarith
    rw [show (0 + 1 : ℕ) = 1 from rfl, Function.iterate_one, tick_near s h1 h2 h0]
    exact ⟨rfl, rfl, rfl, rfl, rfl, rfl, rfl, rfl⟩
  | succ k ih =>
    intro s h1 h2 h3 h4
    by_cases hc : distTo s < 0.1
    · have hsnap := tick_near s h1 h2 hc
      have hmv : (tick s).moving_to_target = false := by rw [hsnap]
      have hfix : tick (tick s) = tick s := tick_idle _ hmv
      have hiter : tick^[k + 1 + 1] s = tick s := by
        rw [Function.iterate_succ_apply]
        exact Function.iterate_fixed hfix (k + 1)
      rw [hiter, hsnap]
      exact ⟨rfl, rfl, rfl, rfl, rfl, rfl, rfl, rfl⟩
    · push_neg at hc
      have hfar := tick_far s h1 h2 hc
      have hdist := distTo_tick_far s h1 h2 h3 hc
      have h1' : (tick s).is_flying = true := by rw [hfar]; exact h1
      have h2' : (tick s).moving_to_target = true := by rw [hfar]; exact h2
      have h3' : 0 < (tick s).movement_speed := by rw [hfar]; exact h3
      have hms' : (tick s).movement_speed = s.movement_speed := by rw [hfar]
      have h4' : distTo (tick s) ≤ (tick s).movement_speed * 0.1 * k := by
        rw [hdist, hms']
        apply max_le
        · have hcast : ((k + 1 : ℕ) : ℝ) = (k : ℝ) + 1 := by push_cast; ring
          rw [hcast] at h4
          nlinarith
        · positivity
      have hres := ih (tick s) h1' h2' h3' h4'
      rw [Function.iterate_succ_apply]
      refine ⟨?_, ?_, ?_, ?_, ?_, ?_, hres.2.2.2.2.2.2.1, hres.2.2.2.2.2.2.2⟩
      · rw [hres.1, hfar]
      · rw [hres.2.1, hfar]
      · rw [hres.2.2.1, hfar]
      · rw [hres.2.2.2.1, hfar]
      · rw [hres.2.2.2.2.1, hfar]
      · rw [hres.2.2.2.2.2.1, hfar]

/-- States along a seeking run: airborne, positive cruise speed,
nonnegative reported speed, and either still seeking or already within
the snap threshold. -/
def GoodSt (s : DroneState) : Prop :=
  s.is_flying = true ∧ 0 < s.movement_speed ∧ 0 ≤ s.speed ∧
    (s.moving_to_target = true ∨ distTo s < 0.1)

lemma good_tick (s : DroneState) (h : GoodSt s) : GoodSt (tick s) := by
  obtain ⟨h1, h2, h3, h4⟩ := h
  by_cases hm : s.moving_to_target = true
  · by_cases hc : distTo s < 0.1
    · have hsnap := tick_near s h1 hm hc
      have hz : distTo (tick s) = 0 := by rw [hsnap] <;> exact distTo_snapped s
      refine ⟨by rw [hsnap] <;> exact h1, by rw [hsnap] <;> exact h2,
        by rw [hsnap] <;> norm_num, Or.inr (by rw [hz] <;> norm_num)⟩
    · push_neg at hc
      have hfar := tick_far s h1 hm hc
      refine ⟨by rw [hfar]; exact h1, by rw [hfar]; exact h2, ?_,
        Or.inl (by rw [hfar]; exact hm)⟩
      rw [hfar]
      show (0:ℝ) ≤ s.movement_speed * 0.1 / 0.1
      positivity
  · have hm' : s.moving_to_target = false := by
      cases hx : s.moving_to_target
      · rfl
      · exact absurd hx hm
    rw [tick_idle s hm']
    refine ⟨h1, h2, h3, ?_⟩
    rcases h4 with h | h
    · exact absurd h hm
    · exact Or.inr h

lemma good_iterate (s : DroneState) (h : GoodSt s) (k : ℕ) : GoodSt (tick^[k] s) := by
  induction k with
  | zero => exact h
  | succ k ih =>
    rw [Function.iterate_succ_apply']
    exact good_tick _ ih

/-- C1 (amended): from an airborne seeking state at distance at least 0.1 m
from the target, every tick taken at distance at least 0.1 m strictly
decreases the distance, the reported speed stays nonnegative, and within
`ceil(d / (cruiseSpeed * 0.1)) + 1` ticks (one more than the claim's
bound) the position is snapped exactly to the target with speed 0 and
seeking cleared. -/
theorem C1_thm (s : DroneState) (hfly : s.is_flying = true)
    (hmov : s.moving_to_target = true) (hms : 0 < s.movement_speed)
    (hsp : 0 ≤ s.speed) (hd : 0.1 ≤ distTo s) :
    (∀ k, 0.1 ≤ distTo (tick^[k] s) →
      distTo (tick^[k + 1] s) < distTo (tick^[k] s)) ∧
    (∀ k, 0 ≤ (tick^[k] s).speed) ∧
    distTo (tick^[⌈distTo s / (s.movement_speed * 0.1)⌉₊ + 1] s) < 0.1 ∧
    (tick^[⌈distTo s / (s.movement_speed * 0.1)⌉₊ + 1] s).latitude = s.target_latitude ∧
    (tick^[⌈distTo s / (s.movement_speed * 0.1)⌉₊ + 1] s).longitude = s.target_longitude ∧
    (tick^[⌈distTo s / (s.movement_speed * 0.1)⌉₊ + 1] s).altitude = s.target_altitude ∧
    (tick^[⌈distTo s / (s.movement_speed * 0.1)⌉₊ + 1] s).speed = 0 ∧
    (tick^[⌈distTo s / (s.movement_speed * 0.1)⌉₊ + 1] s).moving_to_target = false := by
  have hG : GoodSt s := ⟨hfly, hms, hsp, Or.inl hmov⟩
  have hdec : ∀ k, 0.1 ≤ distTo (tick^[k] s) →
      distTo (tick^[k + 1] s) < distTo (tick^[k] s) := by
    intro k hk
    obtain ⟨g1, g2, g3, g4⟩ := good_iterate s hG k
    have hmv : (tick^[k] s).moving_to_target = true := by
      rcases g4 with hx | hx
      · exact hx
      · exact absurd hk (not_le.2 hx)
    rw [Function.iterate_succ_apply', distTo_tick_far _ g1 hmv g2 hk]
    refine max_lt ?_ (by linarith)
    have hpos : (0:ℝ) < (tick^[k] s).movement_speed * 0.1 := by positivity
    linarith
  have hst : (0:ℝ) < s.movement_speed * 0.1 := mul_pos hms (by norm_num)
  have hle : distTo s / (s.movement_speed * 0.1)
      ≤ (⌈distTo s / (s.movement_speed * 0.1)⌉₊ : ℝ) := Nat.le_ceil _
  have hN : distTo s ≤ s.movement_speed * 0.1 * ⌈distTo s / (s.movement_speed * 0.1)⌉₊ := by
    rw [mul_comm]
    exact (div_le_iff hst).1 hle
  obtain ⟨e1, e2, e3, e4, e5, e6, e7, e8⟩ :=
    tick_reach ⌈distTo s / (s.movement_speed * 0.1)⌉₊ s hfly hmov hms hN
  have hdz : distTo (tick^[⌈distTo s / (s.movement_speed * 0.1)⌉₊ + 1] s) = 0 := by
    generalize hK : ⌈distTo s / (s.movement_speed * 0.1)⌉₊ + 1 = K at e1 e2 e3 e4 e5 e6 ⊢
    unfold distTo
    rw [e4, e1, e5, e2, e6, e3]
    simp
  exact ⟨hdec, fun k => (good_iterate s hG k).2.2.1, by rw [hdz]; norm_num,
    e1, e2, e3, e7, e8⟩

lemma distTo_s0 : distTo s0 = 0.5 := by
  have h : distTo s0 = Real.sqrt (0.5 ^ 2) := by
    unfold distTo
    norm_num [s0]
  rw [h, Real.sqrt_sq (by norm_num : (0:ℝ) ≤ 0.5)]

lemma ceil_s0 : ⌈distTo s0 / (s0.movement_speed * 0.1)⌉₊ = 1 := by
  have h1 : (0.5 : ℝ) / (5 * 0.1) = 1 := by norm_num
  rw [distTo_s0, show s0.movement_speed = 5 from rfl, h1, Nat.ceil_one]

/-- C1 (counterexample): the seeking state `s0`, 0.5 m from its target,
satisfies all of the claim's hypotheses, but within
`ceil(d / (cruiseSpeed * 0.1)) = 1` ticks the vehicle is never in the
claimed snapped configuration: after the single tick the position equals
the target but the speed is the cruise speed and seeking is still set
(the snap happens only on the following tick). -/
theorem C1_cex :
    s0.is_flying = true ∧ s0.moving_to_target = true ∧ 0 < s0.movement_speed ∧
    0.1 ≤ distTo s0 ∧
    ¬ ∃ k ≤ ⌈distTo s0 / (s0.movement_speed * 0.1)⌉₊,
        distTo (tick^[k] s0) < 0.1 ∧
        (tick^[k] s0).latitude = s0.target_latitude ∧
        (tick^[k] s0).longitude = s0.target_longitude ∧
        (tick^[k] s0).altitude = s0.target_altitude ∧
        (tick^[k] s0).speed = 0 ∧
        (tick^[k] s0).moving_to_target = false := by
  have hd : (0.1:ℝ) ≤ distTo s0 := by rw [distTo_s0]; norm_num
  refine ⟨rfl, rfl, by rw [show s0.movement_speed = 5 from rfl]; norm_num, hd, ?_⟩
  rintro ⟨k, hk, -, -, -, -, -, hmv⟩
  rw [ceil_s0] at hk
  interval_cases k
  · exact Bool.noConfusion hmv
  · rw [Function.iterate_one, tick_far s0 rfl rfl hd] at hmv
    exact Bool.noConfusion hmv

lemma distTo_s1 : distTo s1 = 10 := by
  have h : distTo s1 = Real.sqrt (10 ^ 2) := by
    unfold distTo
    norm_num [s1]
  rw [h, Real.sqrt_sq (by norm_num : (0:ℝ) ≤ 10)]

/-- C1 (witness): the amended bound at the spec's worked example, a target
10 m due north at cruise speed 5: after `ceil(10 / 0.5) + 1 = 21` ticks
seeking is cleared and the latitude equals the target's exactly. -/
theorem C1_wit :
    s1.is_flying = true ∧ s1.moving_to_target = true ∧ 0 < s1.movement_speed ∧
    0 ≤ s1.speed ∧ 0.1 ≤ distTo s1 ∧
    (tick^[⌈distTo s1 / (s1.movement_speed * 0.1)⌉₊ + 1] s1).moving_to_target = false ∧
    (tick^[⌈distTo s1 / (s1.movement_speed * 0.1)⌉₊ + 1] s1).latitude = s1.target_latitude := by
  have h := C1_thm s1 rfl rfl
    (by rw [show s1.movement_speed = 5 from rfl]; norm_num)
    (le_of_eq rfl) (by rw [distTo_s1]; norm_num)
  exact ⟨rfl, rfl, by rw [show s1.movement_speed = 5 from rfl]; norm_num,
    le_of_eq rfl, by rw [distTo_s1]; norm_num,
    h.2.2.2.2.2.2.2, h.2.2.2.1⟩

/-- C6: takeoff succeeds only from the grounded state, setting `is_flying`
and the exact requested altitude; issued while airborne it returns the
structured error result and mutates nothing, so a second takeoff in a row
changes the state only once. -/
theorem C6_thm (s : DroneState) (a1 a2 : ℝ) :
    (s.is_flying = false →
      takeoff a1 s = (Status.success, { s with is_flying := true, altitude := a1 })) ∧
    (s.is_flying = true → takeoff a1 s = (Status.error, s)) ∧
    (s.is_flying = false →
      takeoff a2 (takeoff a1 s).2 = (Status.error, (takeoff a1 s).2)) := by
  refine ⟨fun h => ?_, fun h => ?_, fun h => ?_⟩
  · unfold takeoff
    rw [h]
    simp
  · unfold takeoff
    rw [h]
    simp
  · have h1 : takeoff a1 s = (Status.success, { s with is_flying := true, altitude := a1 }) := by
      unfold takeoff
      rw [h]
      simp
    rw [h1]
    unfold takeoff
    simp

/-- C6 (witness): from the initial grounded state, takeoff to 10 m
succeeds and a second takeoff is rejected without a state change. -/
theorem C6_wit :
    initState.is_flying = false ∧
    takeoff 10 initState
      = (Status.success, { initState with is_flying := true, altitude := 10 }) ∧
    takeoff 7 (takeoff 10 initState).2 = (Status.error, (takeoff 10 initState).2) :=
  ⟨rfl, (C6_thm initState 10 7).1 rfl, (C6_thm initState 10 7).2.2 rfl⟩

/-- C7: while grounded, `update_position` leaves the whole state unchanged
(position, speed and battery in particular), and the move endpoint
reports an error without mutating the state. -/
theorem C7_thm (s : DroneState) (dlat dlon dalt : ℝ) (hg : s.is_flying = false) :
    update_position dlat dlon dalt s = s ∧
    move dlat dlon dalt s = (Status.error, s) := by
  constructor
  · unfold update_position
    rw [hg]
    simp
  · unfold move
    rw [hg]
    simp

/-- C7 (witness): displacing the grounded initial state by (1, 2, 3) is a
no-op and the endpoint reports an error. -/
theorem C7_wit :
    initState.is_flying = false ∧
    update_position 1 2 3 initState = initState ∧
    move 1 2 3 initState = (Status.error, initState) :=
  ⟨rfl, (C7_thm initState 1 2 3 rfl).1, (C7_thm initState 1 2 3 rfl).2⟩

/-- C8: the invariant "seeking implies airborne" holds initially and is
preserved by takeoff, land, displace, set-goal, and the tick update. -/
theorem C8_thm :
    Inv initState ∧
    (∀ s alt, Inv s → Inv (takeoff alt s).2) ∧
    (∀ s, Inv s → Inv (land s).2) ∧
    (∀ s dlat dlon dalt, Inv s → Inv (update_position dlat dlon dalt s)) ∧
    (∀ s lat lon alt, Inv s → Inv (start_move_to lat lon alt s)) ∧
    (∀ s dt, Inv s → Inv (update_movement dt s)) := by
  refine ⟨?_, ?_, ?_, ?_, ?_, ?_⟩
  · intro h
    simp [initState] at h
  · intro s alt h
    unfold takeoff
    split_ifs with h1
    · intro _
      rfl
    · exact h
  · intro s h
    unfold land
    split_ifs with h1
    · intro hx
      simp at hx
    · exact h
  · intro s a b c h
    unfold update_position
    split_ifs with h1
    · intro _
      exact h1
    · exact h
  · intro s a b c h
    unfold start_move_to
    split_ifs with h1
    · intro _
      exact h1
    · exact h
  · intro s dt h
    unfold update_movement
    split_ifs with h1 h2
    · exact h
    · intro hx
      simp at hx
    · simp only [Bool.or_eq_true, Bool.not_eq_true'] at h1
      push_neg at h1
      intro _
      exact Bool.ne_false_iff.mp h1.1
/-- C8 (witness): invariant preservation applied to a set-goal on an
airborne seeking state. -/
theorem C8_wit :
    (start_move_to 1 2 3 sSeek).moving_to_target = true ∧
    (start_move_to 1 2 3 sSeek).is_flying = true := by
  have h := C8_thm.2.2.2.2.1 sSeek 1 2 3 (fun _ => rfl)
  exact ⟨rfl, h rfl⟩

/-- C10: one simulation-loop iteration on an airborne, non-seeking state
adds exactly 0.0001 degrees to each of latitude and longitude, keeps the
altitude, drains exactly 0.01 battery with no floor, and sets the
reported speed to `sqrt((0.0001*111000)^2 + (0.0001*111000)^2) / 0.1`,
above the 5 m/s cruise speed. -/
theorem C10_thm (s : DroneState) (hfly : s.is_flying = true)
    (hmov : s.moving_to_target = false) :
    (simulateStep s).latitude = s.latitude + 0.0001 ∧
    (simulateStep s).longitude = s.longitude + 0.0001 ∧
    (simulateStep s).altitude = s.altitude ∧
    (simulateStep s).battery = s.battery - 0.01 ∧
    (simulateStep s).speed
      = Real.sqrt ((0.0001 * 111000) ^ 2 + (0.0001 * 111000) ^ 2) / 0.1 ∧
    5 < (simulateStep s).speed := by
  have hstep : simulateStep s = { s with
      latitude := s.latitude + 0.0001,
      longitude := s.longitude + 0.0001,
      altitude := s.altitude + 0,
      speed := Real.sqrt ((0.0001 * 111000) ^ 2 + (0.0001 * 111000) ^ 2 + 0 ^ 2) / 0.1,
      battery := s.battery - 0.01 } := by
    unfold simulateStep update_position
    rw [hfly, hmov]
    simp
  have harg : ((0.0001 * 111000 : ℝ)) ^ 2 + (0.0001 * 111000) ^ 2 + 0 ^ 2
      = (0.0001 * 111000) ^ 2 + (0.0001 * 111000) ^ 2 := by norm_num
  have hsq : (11 : ℝ) ≤ Real.sqrt ((0.0001 * 111000) ^ 2 + (0.0001 * 111000) ^ 2) := by
    have h2 : ((11:ℝ)) ^ 2 ≤ (0.0001 * 111000) ^ 2 + (0.0001 * 111000) ^ 2 := by norm_num
    calc (11 : ℝ) = Real.sqrt (11 ^ 2) := (Real.sqrt_sq (by norm_num)).symm
      _ ≤ _ := Real.sqrt_le_sqrt h2
  rw [hstep]
  refine ⟨rfl, rfl, ?_, rfl, ?_, ?_⟩
  · show s.altitude + 0 = s.altitude
    ring
  · show Real.sqrt ((0.0001 * 111000) ^ 2 + (0.0001 * 111000) ^ 2 + 0 ^ 2) / 0.1 = _
    rw [harg]
  · show 5 < Real.sqrt ((0.0001 * 111000) ^ 2 + (0.0001 * 111000) ^ 2 + 0 ^ 2) / 0.1
    rw [harg, lt_div_iff (by norm_num : (0:ℝ) < 0.1)]
    linarith

/-- C10 (witness): the drift step on an airborne, non-seeking state keeps
the altitude. -/
theorem C10_wit :
    sDrift.is_flying = true ∧ sDrift.moving_to_target = false ∧
    (simulateStep sDrift).altitude = sDrift.altitude :=
  ⟨rfl, rfl, (C10_thm sDrift rfl rfl).2.2.1⟩

end DroneSim

namespace FleetSim

lemma send_to_drone_fail (net : String → RemoteOutcome) (reg : Registry) (did : Nat)
    (ep : String) (d : FleetDrone) (hfind : findDrone reg did = some d)
    (hf : isFailure (net (droneUrl d ++ ep)) = true) :
    ∃ e, send_to_drone net reg did ep = (Except.error e, [droneUrl d ++ ep]) := by
  unfold send_to_drone
  simp only [hfind]
  cases hnet : net (droneUrl d ++ ep) with
  | transportError msg => exact ⟨_, rfl⟩
  | httpError code msg => exact ⟨_, rfl⟩
  | ok reply =>
    rw [hnet] at hf
    simp [isFailure] at hf

lemma takeoff_drone_fail (net : String → RemoteOutcome) (reg : Registry)
    (did now : Nat) (d : FleetDrone) (hfind : findDrone reg did = some d)
    (hf : isFailure (net (droneUrl d ++ "/api/drone/takeoff")) = true) :
    exceptIsOk (takeoff_drone net reg did now).1 = false ∧
      (takeoff_drone net reg did now).2.1 = reg := by
  obtain ⟨e, he⟩ := send_to_drone_fail net reg did "/api/drone/takeoff" d hfind hf
  unfold takeoff_drone
  rw [he]
  exact ⟨rfl, rfl⟩

lemma land_drone_fail (net : String → RemoteOutcome) (reg : Registry)
    (did now : Nat) (d : FleetDrone) (hfind : findDrone reg did = some d)
    (hf : isFailure (net (droneUrl d ++ "/api/drone/land")) = true) :
    exceptIsOk (land_drone net reg did now).1 = false ∧
      (land_drone net reg did now).2.1 = reg := by
  obtain ⟨e, he⟩ := send_to_drone_fail net reg did "/api/drone/land" d hfind hf
  unfold land_drone
  rw [he]
  exact ⟨rfl, rfl⟩

lemma move_drone_fail (net : String → RemoteOutcome) (reg : Registry)
    (did : Nat) (lat lng alt : ℚ) (now : Nat) (d : FleetDrone)
    (hfind : findDrone reg did = some d)
    (hf : isFailure (net (droneUrl d ++ "/api/drone/move")) = true) :
    exceptIsOk (move_drone net reg did lat lng alt now).1 = false ∧
      (move_drone net reg did lat lng alt now).2.1 = reg := by
  obtain ⟨e, he⟩ := send_to_drone_fail net reg did "/api/drone/move" d hfind hf
  unfold move_drone
  rw [he]
  exact ⟨rfl, rfl⟩

lemma move_to_drone_fail (net : String → RemoteOutcome) (reg : Registry)
    (did : Nat) (lat lng alt : ℚ) (now : Nat) (d : FleetDrone)
    (hfind : findDrone reg did = some d)
    (hf : isFailure (net (droneUrl d ++ "/api/drone/move_to")) = true) :
    exceptIsOk (move_to_drone net reg did lat lng alt now).1 = false ∧
      (move_to_drone net reg did lat lng alt now).2.1 = reg := by
  obtain ⟨e, he⟩ := send_to_drone_fail net reg did "/api/drone/move_to" d hfind hf
  unfold move_to_drone
  rw [he]
  exact ⟨rfl, rfl⟩

lemma get_drone_status_fail (net : String → RemoteOutcome) (reg : Registry)
    (did : Nat) (d : FleetDrone) (hfind : findDrone reg did = some d)
    (hf : isFailure (net (droneUrl d ++ "/api/drone/status")) = true) :
    exceptIsOk (get_drone_status net reg did).1 = false := by
  obtain ⟨e, he⟩ := send_to_drone_fail net reg did "/api/drone/status" d hfind hf
  unfold get_drone_status
  rw [he]
  rfl

/-- C2 (counterexample): with vehicle 1 registered as stopped and a network
on which the vehicle call completes at the HTTP level but the vehicle
replies `{status: "error"}`, the takeoff relay does not surface an error:
it returns a success result embedding the reply, and it does modify the
cached record. -/
theorem C2_cex :
    (takeoff_drone netBusy reg1 1 5).1
      = Except.ok ⟨1, "takeoff initiated", ⟨"error", "Drone is already flying"⟩⟩ ∧
    (takeoff_drone netBusy reg1 1 5).2.1 ≠ reg1 := by
  constructor
  · rfl
  · decide

/-- C2 (amended): for every fleet relay command (takeoff/land/move/move_to)
whose remote vehicle call completes at the HTTP level but returns a
non-success application status, the relay returns the vehicle's reply
(original status/detail) embedded in a normal success response, and the
cached record fields are updated exactly as for a successful command; the
registry is left unchanged only when the call itself fails at the HTTP
level (for every network on which the calls fail at the transport/HTTP
level, all four commands leave the registry unmodified). -/
theorem C2_thm (net : String → RemoteOutcome) (reg : Registry) (did now : Nat)
    (lat lng alt : ℚ) (d : FleetDrone) (reply : Reply)
    (hfind : findDrone reg did = some d)
    (hstatus : reply.status ≠ "success")
    (hnet : ∀ ep : String, net (droneUrl d ++ ep) = RemoteOutcome.ok reply) :
    takeoff_drone net reg did now =
      (Except.ok ⟨did, "takeoff initiated", reply⟩,
       updateWhere reg did
         (fun x => { x with current_status := "flying", updated_at := now }),
       [droneUrl d ++ "/api/drone/takeoff"]) ∧
    land_drone net reg did now =
      (Except.ok ⟨did, "landing initiated", reply⟩,
       updateWhere reg did
         (fun x => { x with current_status := "stopped", updated_at := now }),
       [droneUrl d ++ "/api/drone/land"]) ∧
    move_drone net reg did lat lng alt now =
      (Except.ok ⟨did, "move command sent", reply⟩,
       updateWhere reg did
         (fun x =>
           { x with
               current_lat := some lat,
               current_lng := some lng,
               current_altitude := some alt,
               updated_at := now }),
       [droneUrl d ++ "/api/drone/move"]) ∧
    move_to_drone net reg did lat lng alt now =
      (Except.ok ⟨did, "move_to command sent", reply⟩,
       updateWhere reg did
         (fun x =>
           { x with
               current_lat := some lat,
               current_lng := some lng,
               current_altitude := some alt,
               updated_at := now }),
       [droneUrl d ++ "/api/drone/move_to"]) ∧
    (∀ net2 : String → RemoteOutcome,
      (∀ ep : String, isFailure (net2 (droneUrl d ++ ep)) = true) →
      (takeoff_drone net2 reg did now).2.1 = reg ∧
      (land_drone net2 reg did now).2.1 = reg ∧
      (move_drone net2 reg did lat lng alt now).2.1 = reg ∧
      (move_to_drone net2 reg did lat lng alt now).2.1 = reg) := by
  refine ⟨?_, ?_, ?_, ?_, ?_⟩
  · unfold takeoff_drone send_to_drone
    simp only [hfind, hnet]
  · unfold land_drone send_to_drone
    simp only [hfind, hnet]
  · unfold move_drone send_to_drone
    simp only [hfind, hnet]
  · unfold move_to_drone send_to_drone
    simp only [hfind, hnet]
  · intro net2 hfail
    exact ⟨(takeoff_drone_fail net2 reg did now d hfind (hfail _)).2,
           (land_drone_fail net2 reg did now d hfind (hfail _)).2,
           (move_drone_fail net2 reg did lat lng alt now d hfind (hfail _)).2,
           (move_to_drone_fail net2 reg did lat lng alt now d hfind (hfail _)).2⟩

/-- C2 (witness): the amended behavior at the concrete counterexample
input — the vehicle replies status `"error"` on every endpoint, each of
the four commands returns a success response embedding that reply and
updates the registry, while against the unreachable network the registry
stays unchanged. -/
theorem C2_wit :
    findDrone reg1 1 = some dStopped ∧
    netBusy (droneUrl dStopped ++ "/api/drone/takeoff")
      = RemoteOutcome.ok ⟨"error", "Drone is already flying"⟩ ∧
    takeoff_drone netBusy reg1 1 5 =
      (Except.ok ⟨1, "takeoff initiated", ⟨"error", "Drone is already flying"⟩⟩,
       updateWhere reg1 1
         (fun x => { x with current_status := "flying", updated_at := 5 }),
       [droneUrl dStopped ++ "/api/drone/takeoff"]) ∧
    land_drone netBusy reg1 1 5 =
      (Except.ok ⟨1, "landing initiated", ⟨"error", "Drone is already flying"⟩⟩,
       updateWhere reg1 1
         (fun x => { x with current_status := "stopped", updated_at := 5 }),
       [droneUrl dStopped ++ "/api/drone/land"]) ∧
    move_drone netBusy reg1 1 3 4 7 5 =
      (Except.ok ⟨1, "move command sent", ⟨"error", "Drone is already flying"⟩⟩,
       updateWhere reg1 1
         (fun x =>
           { x with
               current_lat := some 3,
               current_lng := some 4,
               current_altitude := some 7,
               updated_at := 5 }),
       [droneUrl dStopped ++ "/api/drone/move"]) ∧
    move_to_drone netBusy reg1 1 3 4 7 5 =
      (Except.ok ⟨1, "move_to command sent", ⟨"error", "Drone is already flying"⟩⟩,
       updateWhere reg1 1
         (fun x =>
           { x with
               current_lat := some 3,
               current_lng := some 4,
               current_altitude := some 7,
               updated_at := 5 }),
       [droneUrl dStopped ++ "/api/drone/move_to"]) ∧
    (takeoff_drone netDown reg1 1 5).2.1 = reg1 ∧
    (move_drone netDown reg1 1 3 4 7 5).2.1 = reg1 := by
  have h := C2_thm netBusy reg1 1 5 3 4 7 dStopped ⟨"error", "Drone is already flying"⟩
    rfl (by decide) (fun _ => rfl)
  have hfailpart := h.2.2.2.2 netDown (fun _ => rfl)
  exact ⟨rfl, rfl, h.1, h.2.1, h.2.2.1, h.2.2.2.1, hfailpart.1, hfailpart.2.2.1⟩

/-- C3: when the remote call for a registered vehicle fails at the
transport level (unreachable, or an HTTP error status), every relay
command propagates the failure to its caller and leaves the cached
registry record unmodified. -/
theorem C3_thm (net : String → RemoteOutcome) (reg : Registry) (did now : Nat)
    (lat lng alt : ℚ) (d : FleetDrone) (hfind : findDrone reg did = some d)
    (hfail : ∀ ep : String, isFailure (net (droneUrl d ++ ep)) = true) :
    (exceptIsOk (takeoff_drone net reg did now).1 = false ∧
      (takeoff_drone net reg did now).2.1 = reg) ∧
    (exceptIsOk (land_drone net reg did now).1 = false ∧
      (land_drone net reg did now).2.1 = reg) ∧
    (exceptIsOk (move_drone net reg did lat lng alt now).1 = false ∧
      (move_drone net reg did lat lng alt now).2.1 = reg) ∧
    (exceptIsOk (move_to_drone net reg did lat lng alt now).1 = false ∧
      (move_to_drone net reg did lat lng alt now).2.1 = reg) ∧
    exceptIsOk (get_drone_status net reg did).1 = false :=
  ⟨takeoff_drone_fail net reg did now d hfind (hfail _),
   land_drone_fail net reg did now d hfind (hfail _),
   move_drone_fail net reg did lat lng alt now d hfind (hfail _),
   move_to_drone_fail net reg did lat lng alt now d hfind (hfail _),
   get_drone_status_fail net reg did d hfind (hfail _)⟩

/-- C3 (witness): against an unreachable vehicle, takeoff and move fail
and the registry record is unchanged. -/
theorem C3_wit :
    findDrone reg1 1 = some dStopped ∧
    isFailure (netDown (droneUrl dStopped ++ "/api/drone/takeoff")) = true ∧
    exceptIsOk (takeoff_drone netDown reg1 1 5).1 = false ∧
    (takeoff_drone netDown reg1 1 5).2.1 = reg1 ∧
    (move_drone netDown reg1 1 3 4 7 5).2.1 = reg1 := by
  have h := C3_thm netDown reg1 1 5 3 4 7 dStopped rfl (fun _ => rfl)
  exact ⟨rfl, rfl, h.1.1, h.1.2, h.2.2.1.2⟩

/-- C9: a relay command for an id absent from the registry returns the
404 not-found error, contacts no network address, and leaves the
registry unchanged — for all five relay commands. -/
theorem C9_thm (net : String → RemoteOutcome) (reg : Registry) (did now : Nat)
    (lat lng alt : ℚ) (h : findDrone reg did = none) :
    takeoff_drone net reg did now
      = (Except.error ⟨404, "Drone " ++ toString did ++ " not found"⟩, reg, []) ∧
    land_drone net reg did now
      = (Except.error ⟨404, "Drone " ++ toString did ++ " not found"⟩, reg, []) ∧
    move_drone net reg did lat lng alt now
      = (Except.error ⟨404, "Drone " ++ toString did ++ " not found"⟩, reg, []) ∧
    move_to_drone net reg did lat lng alt now
      = (Except.error ⟨404, "Drone " ++ toString did ++ " not found"⟩, reg, []) ∧
    get_drone_status net reg did
      = (Except.error ⟨404, "Drone " ++ toString did ++ " not found"⟩, []) := by
  refine ⟨?_, ?_, ?_, ?_, ?_⟩ <;>
    simp only [takeoff_drone, land_drone, move_drone, move_to_drone, get_drone_status,
      send_to_drone, h]

/-- C9 (witness): a command for id 7 on the empty registry is rejected
with 404 and no network call. -/
theorem C9_wit :
    findDrone reg0 7 = none ∧
    takeoff_drone netDown reg0 7 0
      = (Except.error ⟨404, "Drone " ++ toString 7 ++ " not found"⟩, reg0, []) ∧
    get_drone_status netDown reg0 7
      = (Except.error ⟨404, "Drone " ++ toString 7 ++ " not found"⟩, []) := by
  have h := C9_thm netDown reg0 7 0 1 2 3 rfl
  exact ⟨rfl, h.1, h.2.2.2.2⟩

end FleetSim

namespace FleetSim

lemma dictInsert_of_not_mem (l : List (Nat × TEntry)) (k : Nat) (v : TEntry)
    (h : k ∉ l.map Prod.fst) : dictInsert l k v = l ++ [(k, v)] := by
  induction l with
  | nil => rfl
  | cons p rest ih =>
    simp only [List.map_cons, List.mem_cons, not_or] at h
    simp only [dictInsert]
    rw [if_neg (fun hx => h.1 hx.symm), ih h.2]
    rfl

lemma aggregate_go (net : String → Option String) :
    ∀ (rest : List (Nat × FleetDrone)) (acc : List (Nat × TEntry)),
      (∀ p ∈ rest, p.1 ∉ acc.map Prod.fst) → (rest.map Prod.fst).Nodup →
      rest.foldl (fun a p => dictInsert a p.1 (mkEntry net p.2)) acc
        = acc ++ rest.map (fun p => (p.1, mkEntry net p.2)) := by
  intro rest
  induction rest with
  | nil =>
    intro acc _ _
    simp
  | cons q rest ih =>
    intro acc hdisj hnd
    simp only [List.map_cons, List.nodup_cons] at hnd
    rw [List.foldl_cons,
      dictInsert_of_not_mem acc q.1 (mkEntry net q.2) (hdisj q (List.mem_cons_self q rest))]
    have hstep := ih (acc ++ [(q.1, mkEntry net q.2)]) ?_ hnd.2
    · rw [hstep]
      simp
    · intro p hp hmem
      rw [List.map_append] at hmem
      rcases List.mem_append.mp hmem with hin | hin
      · exact hdisj p (List.mem_cons_of_mem q hp) hin
      · have hq : p.1 = q.1 := by simpa using hin
        exact hnd.1 (hq ▸ List.mem_map_of_mem Prod.fst hp)

/-- C5: an aggregation round over registered vehicles with distinct ids
produces the id-to-telemetry mapping with exactly one entry per vehicle,
in registry order; a vehicle's entry is the error marker exactly when its
status query failed, and the successful snapshot otherwise. -/
theorem C5_thm (net : String → Option String) (reg : Registry)
    (hnd : (reg.map Prod.fst).Nodup) :
    aggregateRound net reg = reg.map (fun p => (p.1, mkEntry net p.2)) ∧
    (aggregateRound net reg).length = reg.length ∧
    ∀ p ∈ reg, (mkEntry net p.2 = TEntry.err ↔
      net (droneUrl p.2 ++ "/api/drone/status") = none) := by
  have h1 : aggregateRound net reg
      = [] ++ reg.map (fun p => (p.1, mkEntry net p.2)) :=
    aggregate_go net reg [] (by simp) hnd
  simp only [List.nil_append] at h1
  refine ⟨h1, ?_, ?_⟩
  · rw [h1, List.length_map]
  · intro p _
    unfold mkEntry
    cases hq : net (droneUrl p.2 ++ "/api/drone/status") with
    | some payload => simp
    | none => simp

/-- C5 (witness): three registered vehicles of which exactly the second is
unreachable yield a mapping of size 3 with one error entry and two
successful entries (the third also exhibits the zero-latitude
truthiness quirk). -/
theorem C5_wit :
    (reg3.map Prod.fst).Nodup ∧
    aggregateRound net3 reg3 =
      [(1, TEntry.ok "a" "telemetry" (some 10) (some 20) (some 30) 90 50),
       (2, TEntry.err),
       (3, TEntry.ok "c" "telemetry" none (some 5) none 70 40)] ∧
    (aggregateRound net3 reg3).length = 3 := by
  have h := C5_thm net3 reg3 (by decide)
  refine ⟨by decide, ?_, ?_⟩
  · rw [h.1]
    rfl
  · exact h.2.1

lemma broadcastFrom_eq (ok : Nat → Bool) (i : Nat) (l : List Nat) :
    broadcastFrom ok i l =
      if h : i < l.length then
        if ok (l.get ⟨i, h⟩) then
          ((broadcastFrom ok (i + 1) l).1,
           l.get ⟨i, h⟩ :: (broadcastFrom ok (i + 1) l).2)
        else broadcastFrom ok (i + 1) (l.erase (l.get ⟨i, h⟩))
      else (l, []) := by
  rw [broadcastFrom]

lemma broadcastFrom_allok (ok : Nat → Bool) :
    ∀ (n i : ℕ) (l : List Nat), l.length - i ≤ n →
      (∀ x ∈ l.drop i, ok x = true) → broadcastFrom ok i l = (l, l.drop i) := by
  intro n
  induction n with
  | zero =>
    intro i l hn _
    rw [broadcastFrom_eq, dif_neg (by omega : ¬ i < l.length),
      List.drop_eq_nil_of_le (by omega : l.length ≤ i)]
  | succ n ih =>
    intro i l hn hok
    by_cases h : i < l.length
    · have hdrop : l.drop i = l.get ⟨i, h⟩ :: l.drop (i + 1) := by
        rw [List.drop_eq_getElem_cons h]
        rfl
      have hx : ok (l.get ⟨i, h⟩) = true :=
        hok _ (by rw [hdrop]; exact List.mem_cons_self _ _)
      have hrec := ih (i + 1) l (by omega)
        (fun x hx' => hok x (by rw [hdrop]; exact List.mem_cons_of_mem _ hx'))
      rw [broadcastFrom_eq, dif_pos h, if_pos hx, hrec, hdrop]
    · rw [broadcastFrom_eq, dif_neg h,
        List.drop_eq_nil_of_le (by omega : l.length ≤ i)]

end FleetSim

namespace FleetSim

lemma broadcastFrom_skip (ok : Nat → Bool) :
    ∀ (k i : ℕ) (l : List Nat), (∀ x ∈ (l.drop i).take k, ok x = true) →
      broadcastFrom ok i l
        = ((broadcastFrom ok (i + k) l).1,
           (l.drop i).take k ++ (broadcastFrom ok (i + k) l).2) := by
  intro k
  induction k with
  | zero =>
    intro i l _
    simp
  | succ k ih =>
    intro i l hok
    by_cases h : i < l.length
    · have hdrop : l.drop i = l.get ⟨i, h⟩ :: l.drop (i + 1) := by
        rw [List.drop_eq_getElem_cons h]
        rfl
      have hx : ok (l.get ⟨i, h⟩) = true := by
        apply hok
        rw [hdrop, List.take_succ_cons]
        exact List.mem_cons_self _ _
      have hok' : ∀ x ∈ (l.drop (i + 1)).take k, ok x = true := by
        intro x hx'
        apply hok
        rw [hdrop, List.take_succ_cons]
        exact List.mem_cons_of_mem _ hx'
      have hidx : i + 1 + k = i + (k + 1) := by omega
      have hrec := ih (i + 1) l hok'
      rw [broadcastFrom_eq, dif_pos h, if_pos hx, hrec, hidx, hdrop, List.take_succ_cons]
      rfl
    · have hdrop : l.drop i = [] := List.drop_eq_nil_of_le (by omega : l.length ≤ i)
      rw [broadcastFrom_eq, dif_neg h, broadcastFrom_eq,
        dif_neg (by omega : ¬ i + (k + 1) < l.length), hdrop]
      simp

lemma broadcast_split (ok : Nat → Bool) (pre post : List Nat) (f : Nat)
    (hf : ok f = false) (hfpre : f ∉ pre) (hpre : ∀ x ∈ pre, ok x = true)
    (hpost : ∀ x ∈ post, ok x = true) :
    broadcastRound ok (pre ++ f :: post) = (pre ++ post, pre ++ post.drop 1) := by
  unfold broadcastRound
  have htake : (((pre ++ f :: post).drop 0)).take pre.length = pre := by
    rw [List.drop_zero]
    exact List.take_left pre (f :: post)
  have hskip := broadcastFrom_skip ok pre.length 0 (pre ++ f :: post)
    (fun x hx => hpre x (by rwa [htake] at hx))
  rw [hskip, htake, Nat.zero_add]
  have hlen : pre.length < (pre ++ f :: post).length := by simp
  have hget : (pre ++ f :: post).get ⟨pre.length, hlen⟩ = f := by
    rw [List.get_eq_getElem, List.getElem_append_right (le_refl pre.length)]
    simp
  have hcond : ¬ ok ((pre ++ f :: post).get ⟨pre.length, hlen⟩) = true := by
    rw [hget, hf]
    simp
  rw [broadcastFrom_eq, dif_pos hlen, if_neg hcond, hget]
  have herase : (pre ++ f :: post).erase f = pre ++ post := by
    rw [List.erase_append_right _ hfpre, List.erase_cons_head]
  rw [herase]
  have hdropsub : (pre ++ post).drop (pre.length + 1) = post.drop 1 := by
    rw [show pre.length + 1 = pre.length + 1 from rfl, ← List.drop_drop,
      List.drop_left]
  have hallok := broadcastFrom_allok ok (pre ++ post).length (pre.length + 1)
    (pre ++ post) (by omega)
    (by
      intro x hx
      rw [hdropsub] at hx
      exact hpost x (List.drop_subset 1 post hx))
  rw [hallok, hdropsub]

/-- C4 (amended): in a broadcast round over the subscriber list
`pre ++ [f] ++ post` in which exactly the push to `f` fails, `f` is
removed from the active set and the loop completes the round normally,
but — because the list is mutated during index-based iteration — the
subscriber immediately after `f` is skipped for that round: exactly
`pre` and the tail of `post` receive the snapshot. -/
theorem C4_thm (ok : Nat → Bool) (pre post : List Nat) (f : Nat)
    (hf : ok f = false) (hfpre : f ∉ pre) (hpre : ∀ x ∈ pre, ok x = true)
    (hpost : ∀ x ∈ post, ok x = true) :
    broadcastRound ok (pre ++ f :: post) = (pre ++ post, pre ++ post.drop 1) :=
  broadcast_split ok pre post f hf hfpre hpre hpost

/-- C4 (counterexample): with active subscribers `[0, 1]` where only the
push to 0 fails, subscriber 0 is removed but subscriber 1 — still active
and reachable — does not receive that round's snapshot, contradicting the
claim that every other active subscriber still receives it. -/
theorem C4_cex :
    okA 0 = false ∧ okA 1 = true ∧
    broadcastRound okA [0, 1] = ([1], []) ∧
    1 ∉ (broadcastRound okA [0, 1]).2 := by
  have h := broadcast_split okA [] [1] 0 rfl (by simp) (by simp) (by decide)
  have h' : broadcastRound okA [0, 1] = ([1], []) := by simpa using h
  refine ⟨rfl, rfl, h', ?_⟩
  rw [h']
  simp

/-- C4 (witness): the amended round over `[1, 0, 2, 3]` with subscriber 0
failing: 0 is removed, 2 is skipped, and 1 and 3 receive the snapshot. -/
theorem C4_wit :
    okA 0 = false ∧ (0 ∉ [1]) ∧
    broadcastRound okA ([1] ++ 0 :: [2, 3]) = ([1] ++ [2, 3], [1] ++ [2, 3].drop 1) :=
  ⟨rfl, by decide, C4_thm okA [1] [2, 3] 0 rfl (by decide) (by decide) (by decide)⟩

end FleetSim
